import Mathlib

/-!
Verification of the ore-app front-end components against their specification.

The development shallow-embeds the three source files:
- `src/components/wallet_adapter.rs` (the `InvokeSignature` view over
  `InvokeSignatureStatus`),
- `src/components/claim_modal/claim_confirm.rs` (the claim confirm screen:
  submit handler, back handler, amount display),
- `src/components/import_key.rs` (the key-import flow: step effect, warning
  acknowledgment, and the pasted-key validation pass, including a faithful
  base58 decoder matching the `bs58` crate's `decode(..).into_vec()`).

External collaborators (the wallet bridge, the gateway RPC, and the ed25519
keypair parser) are modelled as explicit outcome parameters, since the code
only branches on their results.
-/

namespace OreApp

/-- Transaction signatures are treated as opaque values. -/
abbrev TxSignature := Nat

/-- Gateway errors are treated as opaque values. -/
abbrev GatewayError := Nat

/-! ## wallet_adapter.rs : InvokeSignature -/

/-- `InvokeSignatureStatus` from `use_wallet_adapter`, matched on by the
`InvokeSignature` component (wallet_adapter.rs lines 48-99). -/
inductive InvokeSignatureStatus where
  | Start
  | Waiting
  | DoneWithError
  | Done (sig : TxSignature)
deriving DecidableEq, Repr

/-- Abstraction of the element `InvokeSignature` renders for a status:
whether the triggering control carries `disabled: true`, and whether its
`onclick` calls `use_wallet_adapter::invoke_signature(tx, signal)`. -/
structure SignatureControl where
  disabled : Bool
  invokes : Bool
deriving DecidableEq, Repr

/-- The `match *signal.read()` of `InvokeSignature` (wallet_adapter.rs 48-99):
`Start` renders an enabled button whose onclick calls `invoke_signature`;
`Waiting` renders a disabled spinner button with no onclick;
`DoneWithError` renders an enabled Retry button whose onclick calls
`invoke_signature`; `Done(sig)` renders a disabled check-mark button with no
onclick. -/
def invokeSignatureView : InvokeSignatureStatus → SignatureControl
  | .Start => ⟨false, true⟩
  | .Waiting => ⟨true, false⟩
  | .DoneWithError => ⟨false, true⟩
  | .Done _ => ⟨true, false⟩

/-! ## claim_modal/claim_confirm.rs : ClaimConfirm -/

/-- `ClaimStep` from the claim modal. -/
inductive ClaimStep where
  | Edit
  | Confirm
  | Done
deriving DecidableEq, Repr

/-- The claim-session state visible to `ClaimConfirm`: the `is_busy` state,
the `claim_step` state, the staged `amount` prop, the restart counters of the
`proof_handle` (and the commented-out `balance_handle`) futures, and the log
produced via `log::error!`. -/
structure ClaimSession where
  is_busy : Bool
  claim_step : ClaimStep
  amount : Nat
  proof_restarts : Nat
  balance_restarts : Nat
  error_log : List String
deriving DecidableEq, Repr

/-- The Confirm button's `onclick` handler of `ClaimConfirm`
(claim_confirm.rs 68-90), given the resolved outcome of
`gateway.claim_ore(amount)`: it first sets `is_busy` to true, then on `Ok`
clears `is_busy`, restarts the proof future (the balance restart is commented
out), and sets the step to `Done`; on `Err` it clears `is_busy` and logs
"Failed to claim!". -/
def claimConfirmSubmit (outcome : Except GatewayError TxSignature)
    (s : ClaimSession) : ClaimSession :=
  let busy := { s with is_busy := true }
  match outcome with
  | .ok _ =>
      { busy with
        is_busy := false
        proof_restarts := busy.proof_restarts + 1
        claim_step := ClaimStep.Done }
  | .error _ =>
      { busy with
        is_busy := false
        error_log := busy.error_log ++ ["Failed to claim!"] }

/-- The `BackButton`'s `onclick` handler of `ClaimConfirm`
(claim_confirm.rs 33-37): it sets `claim_step` to `Edit` and nothing else. -/
def claimConfirmBack (s : ClaimSession) : ClaimSession :=
  { s with claim_step := ClaimStep.Edit }

/-- Modelled from the spec: `ore::TOKEN_DECIMALS`, the fixed decimal-places
constant of the external `ore` crate, which is not part of this repository.
The spec fixes it at 9 ("amount 2_500_000_000 with decimals = 9 renders as
2.5"). -/
def TOKEN_DECIMALS : Nat := 9

/-- The displayed amount of `ClaimConfirm` (claim_confirm.rs line 25):
`(amount as f64) / 10f64.powf(ore::TOKEN_DECIMALS.into())`, embedded over the
exact rationals (the floating-point computation is exact at the inputs the
claims evaluate it at). -/
def claimAmountDisplay (amount : Nat) : ℚ :=
  (amount : ℚ) / 10 ^ TOKEN_DECIMALS

/-! ## import_key.rs : ImportKey flow -/

/-- `AsyncResult` from the gateway module, as consumed by import_key.rs. -/
inductive AsyncResult (T : Type) where
  | Loading
  | Ok (v : T)
  | Error (e : GatewayError)
deriving DecidableEq, Repr

/-- `ImportKeyStep` (import_key.rs 18-23). -/
inductive ImportKeyStep where
  | Loading
  | Warning
  | Import
deriving DecidableEq, Repr

/-- The `use_effect` body of `ImportKey` (import_key.rs 29-40): when the step
is `Loading` and the SOL balance query holds `Ok(b)`, move to `Warning` if
`b > 0` and to `Import` otherwise; in every other situation the step is left
unchanged. -/
def importKeyEffect (step : ImportKeyStep) (sol_balance : AsyncResult Nat) :
    ImportKeyStep :=
  match step with
  | .Loading =>
      match sol_balance with
      | .Ok b => if b > 0 then .Warning else .Import
      | _ => .Loading
  | s => s

/-- The acknowledgment button's `onclick` of `ImportKeyWarning`
(import_key.rs 85-92): it sets the step to `Import`. -/
def warningAckStep : ImportKeyStep := ImportKeyStep.Import

/-- `KEY_LENGTH` (import_key.rs line 116). -/
def KEY_LENGTH : Nat := 64

/-- The base58 (Bitcoin) alphabet used by
`solana_sdk::bs58::decode`. -/
def BASE58_ALPHABET : List Char :=
  ("123456789ABCDEFGHJKLMNPQRSTUVWXYZabcdefghijkmnopqrstuvwxyz").data

/-- The digit value of a character in the base58 alphabet, if any. -/
def base58Digit (c : Char) : Option Nat :=
  BASE58_ALPHABET.findIdx? (fun a => a = c)

/-- Big-endian base-256 digits of `n` (empty for `0`), with explicit fuel so
that the definition reduces structurally. -/
def natBytesAux : Nat → Nat → List Nat
  | 0, _ => []
  | fuel + 1, n => if n = 0 then [] else natBytesAux fuel (n / 256) ++ [n % 256]

/-- Big-endian base-256 digits of `n` (empty for `0`). -/
def natBytes (n : Nat) : List Nat := natBytesAux n n

/-- `bs58::decode(text).into_vec()`: fails if any character is outside the
base58 alphabet; otherwise each leading `'1'` yields a leading zero byte and
the remaining characters are read as a big-endian base-58 number emitted in
big-endian base-256 bytes. -/
def bs58DecodeChars (cs : List Char) : Option (List Nat) :=
  if cs.all (fun c => (base58Digit c).isSome) then
    let zeros := (cs.takeWhile (fun c => c = '1')).length
    let rest := cs.dropWhile (fun c => c = '1')
    let n := rest.foldl (fun acc c => acc * 58 + (base58Digit c).getD 0) 0
    some (List.replicate zeros 0 ++ natBytes n)
  else
    none

/-- `bs58::decode` on the pasted string (import_key.rs line 134). -/
def bs58Decode (s : String) : Option (List Nat) := bs58DecodeChars s.data

/-- The state mutated by `ImportKeyImport`'s validation future: the
`sol_balance` signal (a `use_signal` initialised to `None`), the `err_msg`
signal, the `enable_import_button` signal, and a count of the
`gateway.rpc.get_balance` calls issued. -/
structure ImportState where
  sol_balance : Option (AsyncResult Nat)
  err_msg : Option String
  enable_import_button : Bool
  balance_queries : Nat
deriving DecidableEq, Repr

/-- The initial value of the `sol_balance` signal of `ImportKeyImport`
(import_key.rs line 119): `use_signal::<Option<AsyncResult<u64>>>(|| None)`. -/
def importSolBalanceInit : Option (AsyncResult Nat) := none

/-- The `use_future` body of `ImportKeyImport` (import_key.rs 127-159), one
validation pass over the pasted `input`. The ed25519 keypair parser
`Keypair::from_bytes` is an external collaborator, passed in as the predicate
`kpValid`; the gateway's `get_balance` result is passed in as `balanceRes`.
The pass: on base58 decode failure, disable the button and set the error to
"Invalid format"; on a decode of exactly `KEY_LENGTH` bytes that parse into a
keypair, enable the button and issue one balance query whose result is stored
into `sol_balance` as `Ok`/`Error`; on a decode of `KEY_LENGTH` bytes that do
not parse, do nothing; on zero decoded bytes, disable the button and clear
the error; on any other decoded length, disable the button and set the error
to "Invalid length". -/
def validateKeyInput (kpValid : List Nat → Bool)
    (balanceRes : Except GatewayError Nat) (input : String)
    (s : ImportState) : ImportState :=
  match bs58Decode input with
  | some bytes =>
      if bytes.length = KEY_LENGTH then
        if kpValid bytes then
          let s1 := { s with
            enable_import_button := true
            balance_queries := s.balance_queries + 1 }
          match balanceRes with
          | .ok b => { s1 with sol_balance := some (AsyncResult.Ok b) }
          | .error e => { s1 with sol_balance := some (AsyncResult.Error e) }
        else s
      else if bytes.length = 0 then
        { s with enable_import_button := false, err_msg := none }
      else
        { s with enable_import_button := false,
                 err_msg := some ("Invalid length") }
  | none =>
      { s with enable_import_button := false,
               err_msg := some ("Invalid format") }

/-- The sequence of values written to the `sol_balance` signal during one
validation pass of `ImportKeyImport` (import_key.rs 127-159): the only writes
are the two `sol_balance.set(..)` calls on the valid-keypair path. -/
def solBalanceWrites (kpValid : List Nat → Bool)
    (balanceRes : Except GatewayError Nat) (input : String) :
    List (Option (AsyncResult Nat)) :=
  match bs58Decode input with
  | some bytes =>
      if bytes.length = KEY_LENGTH then
        if kpValid bytes then
          match balanceRes with
          | .ok b => [some (AsyncResult.Ok b)]
          | .error e => [some (AsyncResult.Error e)]
        else []
      else []
  | none => []

/-- A pasted key whose base58 decode is 64 zero bytes (64 leading ones). -/
def key64Ones : String :=
  "1111111111111111111111111111111111111111111111111111111111111111"

/-- An import state holding a stale balance display with the button already
enabled (as left behind by an earlier valid input). -/
def staleImportState : ImportState :=
  { sol_balance := some (AsyncResult.Ok 5)
    err_msg := none
    enable_import_button := true
    balance_queries := 1 }

/-- The initial state of the signals of `ImportKeyImport`
(import_key.rs 119-123). -/
def importInitState : ImportState :=
  { sol_balance := importSolBalanceInit
    err_msg := none
    enable_import_button := false
    balance_queries := 0 }

/-- A concrete claim session sitting on the Confirm step with a staged
amount, used to evaluate the handlers. -/
def confirmSession : ClaimSession :=
  { is_busy := false
    claim_step := ClaimStep.Confirm
    amount := 1000000
    proof_restarts := 0
    balance_restarts := 0
    error_log := [] }

/-! ## Theorems -/

/-- C1: the `InvokeSignature` UI offers an action calling `invoke_signature`
exactly when the status is `Start` or `DoneWithError`; while `Waiting` the
control is disabled, and in `Done(sig)` the control is disabled with no retry
action. -/
theorem invoke_signature_gating (st : InvokeSignatureStatus) :
    ((invokeSignatureView st).invokes = true ↔
      st = InvokeSignatureStatus.Start ∨ st = InvokeSignatureStatus.DoneWithError)
    ∧ (st = InvokeSignatureStatus.Waiting →
        (invokeSignatureView st).disabled = true
        ∧ (invokeSignatureView st).invokes = false)
    ∧ (∀ sig, st = InvokeSignatureStatus.Done sig →
        (invokeSignatureView st).disabled = true
        ∧ (invokeSignatureView st).invokes = false) := by
  cases st <;> simp [invokeSignatureView]

/-- Witness for C1 at the `Waiting` and `Done` statuses. -/
theorem invoke_signature_gating_witness :
    (invokeSignatureView InvokeSignatureStatus.Waiting).disabled = true
    ∧ (invokeSignatureView (InvokeSignatureStatus.Done 0)).disabled = true :=
  ⟨((invoke_signature_gating InvokeSignatureStatus.Waiting).2.1 rfl).1,
   ((invoke_signature_gating (InvokeSignatureStatus.Done 0)).2.2 0 rfl).1⟩

/-- C2: when the claim submit handler runs from `Confirm` and the gateway
claim call returns success, the busy flag is cleared, exactly one proof
restart (and no balance restart) is triggered, and the step moves to
`Done`. -/
theorem claim_submit_success (sig : TxSignature) (s : ClaimSession)
    (_h : s.claim_step = ClaimStep.Confirm) :
    (claimConfirmSubmit (Except.ok sig) s).is_busy = false
    ∧ (claimConfirmSubmit (Except.ok sig) s).proof_restarts = s.proof_restarts + 1
    ∧ (claimConfirmSubmit (Except.ok sig) s).balance_restarts = s.balance_restarts
    ∧ (claimConfirmSubmit (Except.ok sig) s).claim_step = ClaimStep.Done := by
  simp [claimConfirmSubmit]

/-- Witness for C2 on a concrete confirm-step session. -/
theorem claim_submit_success_witness :
    (claimConfirmSubmit (Except.ok 3) confirmSession).claim_step = ClaimStep.Done
    ∧ (claimConfirmSubmit (Except.ok 3) confirmSession).proof_restarts
        = confirmSession.proof_restarts + 1 :=
  ⟨(claim_submit_success 3 confirmSession (by decide)).2.2.2,
   (claim_submit_success 3 confirmSession (by decide)).2.1⟩

/-- C3: when the claim submit handler runs from `Confirm` and the gateway
claim call fails, the busy flag is cleared, the step stays at `Confirm`, no
proof or balance refresh is triggered, and the failure is logged. -/
theorem claim_submit_failure (e : GatewayError) (s : ClaimSession)
    (h : s.claim_step = ClaimStep.Confirm) :
    (claimConfirmSubmit (Except.error e) s).is_busy = false
    ∧ (claimConfirmSubmit (Except.error e) s).claim_step = ClaimStep.Confirm
    ∧ (claimConfirmSubmit (Except.error e) s).proof_restarts = s.proof_restarts
    ∧ (claimConfirmSubmit (Except.error e) s).balance_restarts = s.balance_restarts
    ∧ (claimConfirmSubmit (Except.error e) s).error_log
        = s.error_log ++ ["Failed to claim!"] := by
  simp [claimConfirmSubmit, h]

/-- Witness for C3 on a concrete confirm-step session. -/
theorem claim_submit_failure_witness :
    (claimConfirmSubmit (Except.error 0) confirmSession).claim_step = ClaimStep.Confirm
    ∧ (claimConfirmSubmit (Except.error 0) confirmSession).error_log
        = confirmSession.error_log ++ ["Failed to claim!"] :=
  ⟨(claim_submit_failure 0 confirmSession (by decide)).2.1,
   (claim_submit_failure 0 confirmSession (by decide)).2.2.2.2⟩

/-- C9: the back action, available from the Confirm step, moves the step to
`Edit` and changes nothing else: amount, busy flag, restart counters and log
are untouched. -/
theorem claim_back_frame (s : ClaimSession) (_h : s.claim_step = ClaimStep.Confirm) :
    (claimConfirmBack s).claim_step = ClaimStep.Edit
    ∧ (claimConfirmBack s).amount = s.amount
    ∧ (claimConfirmBack s).is_busy = s.is_busy
    ∧ (claimConfirmBack s).proof_restarts = s.proof_restarts
    ∧ (claimConfirmBack s).balance_restarts = s.balance_restarts
    ∧ (claimConfirmBack s).error_log = s.error_log := by
  simp [claimConfirmBack]

/-- Witness for C9 on a concrete confirm-step session. -/
theorem claim_back_frame_witness :
    (claimConfirmBack confirmSession).claim_step = ClaimStep.Edit
    ∧ (claimConfirmBack confirmSession).amount = confirmSession.amount :=
  ⟨(claim_back_frame confirmSession (by decide)).1,
   (claim_back_frame confirmSession (by decide)).2.1⟩

/-- C8: the claim confirm screen renders the staged smallest-unit amount as
the integer divided by `10 ^ TOKEN_DECIMALS`; in particular amount
2500000000 with 9 decimals renders as 2.5. -/
theorem claim_amount_display_rule (a : Nat) :
    claimAmountDisplay a = (a : ℚ) / 10 ^ TOKEN_DECIMALS
    ∧ claimAmountDisplay 2500000000 = 2.5 := by
  refine ⟨rfl, ?_⟩
  norm_num [claimAmountDisplay, TOKEN_DECIMALS]

/-- C6: when the import flow's balance query resolves to `Ok`, balance 0
moves the step `Loading -> Import` directly, any positive balance moves it
`Loading -> Warning`, and from `Warning` the `Import` step is reached only
via the explicit acknowledgment action (the effect never leaves `Warning`;
the acknowledgment button sets `Import`). -/
theorem import_warning_gating (b : Nat) (r : AsyncResult Nat) (hb : 0 < b) :
    importKeyEffect ImportKeyStep.Loading (AsyncResult.Ok 0) = ImportKeyStep.Import
    ∧ importKeyEffect ImportKeyStep.Loading (AsyncResult.Ok b) = ImportKeyStep.Warning
    ∧ importKeyEffect ImportKeyStep.Warning r = ImportKeyStep.Warning
    ∧ warningAckStep = ImportKeyStep.Import := by
  refine ⟨rfl, ?_, rfl, rfl⟩
  simp [importKeyEffect, hb]

/-- Witness for C6 at balance 1. -/
theorem import_warning_gating_witness :
    importKeyEffect ImportKeyStep.Loading (AsyncResult.Ok 1) = ImportKeyStep.Warning :=
  (import_warning_gating 1 AsyncResult.Loading (by decide)).2.1

/-- C4: the validation pass on a pasted key string sets "Invalid format" and
disables import on base58 decode failure; sets no error and disables import
on zero decoded bytes; sets "Invalid length" and disables import on a
nonzero decoded length other than 64; and on exactly 64 bytes forming a
valid keypair enables import and issues exactly one balance query. -/
theorem import_key_validation (kpValid : List Nat → Bool)
    (res : Except GatewayError Nat) (input : String) (s : ImportState) :
    (bs58Decode input = none →
      (validateKeyInput kpValid res input s).err_msg = some ("Invalid format")
      ∧ (validateKeyInput kpValid res input s).enable_import_button = false)
    ∧ (bs58Decode input = some [] →
      (validateKeyInput kpValid res input s).err_msg = none
      ∧ (validateKeyInput kpValid res input s).enable_import_button = false)
    ∧ (∀ bytes, bs58Decode input = some bytes → bytes.length ≠ 0 →
        bytes.length ≠ KEY_LENGTH →
      (validateKeyInput kpValid res input s).err_msg = some ("Invalid length")
      ∧ (validateKeyInput kpValid res input s).enable_import_button = false)
    ∧ (∀ bytes, bs58Decode input = some bytes → bytes.length = KEY_LENGTH →
        kpValid bytes = true →
      (validateKeyInput kpValid res input s).enable_import_button = true
      ∧ (validateKeyInput kpValid res input s).balance_queries
          = s.balance_queries + 1) := by
  refine ⟨?_, ?_, ?_, ?_⟩
  · intro h
    simp [validateKeyInput, h]
  · intro h
    simp [validateKeyInput, h, KEY_LENGTH]
  · intro bytes h h0 hlen
    simp [validateKeyInput, h, h0, hlen]
  · intro bytes h hlen hkp
    cases res <;> simp [validateKeyInput, h, hlen, hkp]

/-- Witness for C4 on four concrete pasted strings, one per case. -/
theorem import_key_validation_witness :
    (validateKeyInput (fun _ => true) (Except.ok 7) "0" importInitState).err_msg
        = some ("Invalid format")
    ∧ (validateKeyInput (fun _ => true) (Except.ok 7) "" importInitState).err_msg
        = none
    ∧ (validateKeyInput (fun _ => true) (Except.ok 7) "2" importInitState).err_msg
        = some ("Invalid length")
    ∧ (validateKeyInput (fun _ => true) (Except.ok 7) key64Ones
        importInitState).enable_import_button = true
    ∧ (validateKeyInput (fun _ => true) (Except.ok 7) key64Ones
        importInitState).balance_queries = importInitState.balance_queries + 1 := by
  refine ⟨?_, ?_, ?_, ?_, ?_⟩
  · exact ((import_key_validation (fun _ => true) (Except.ok 7) "0"
      importInitState).1 (by decide)).1
  · exact ((import_key_validation (fun _ => true) (Except.ok 7) ""
      importInitState).2.1 (by decide)).1
  · exact ((import_key_validation (fun _ => true) (Except.ok 7) "2"
      importInitState).2.2.1 [1] (by decide) (by decide) (by decide)).1
  · exact ((import_key_validation (fun _ => true) (Except.ok 7) key64Ones
      importInitState).2.2.2 (List.replicate 64 0) (by decide) (by decide)
      (by decide)).1
  · exact ((import_key_validation (fun _ => true) (Except.ok 7) key64Ones
      importInitState).2.2.2 (List.replicate 64 0) (by decide) (by decide)
      (by decide)).2

/-- Counterexample to C5 as stated: on a 64-byte input whose keypair parse
fails, the pass leaves the import action enabled and the stale balance
display in place; and even on a base58 decode failure the stale balance
display is not cleared. -/
theorem import_key_disable_clear_cex :
    bs58Decode key64Ones = some (List.replicate 64 0)
    ∧ (validateKeyInput (fun _ => false) (Except.ok 0) key64Ones
        staleImportState).enable_import_button = true
    ∧ (validateKeyInput (fun _ => false) (Except.ok 0) key64Ones
        staleImportState).sol_balance = some (AsyncResult.Ok 5)
    ∧ bs58Decode "0" = none
    ∧ (validateKeyInput (fun _ => false) (Except.ok 0) "0"
        staleImportState).sol_balance = some (AsyncResult.Ok 5) := by
  decide

/-- C5 amended: a base58 decode failure or a wrong decoded length disables
the import action but leaves the balance display unchanged (it is not
cleared); a keypair parse failure on 64 bytes leaves the entire state
unchanged, so a previously enabled import action stays enabled; and a
validation pass newly enables the import action only for a string passing
all three checks. -/
theorem import_key_failure_handling (kpValid : List Nat → Bool)
    (res : Except GatewayError Nat) (input : String) (s : ImportState) :
    (bs58Decode input = none →
      (validateKeyInput kpValid res input s).enable_import_button = false
      ∧ (validateKeyInput kpValid res input s).sol_balance = s.sol_balance)
    ∧ (∀ bytes, bs58Decode input = some bytes → bytes.length ≠ KEY_LENGTH →
      (validateKeyInput kpValid res input s).enable_import_button = false
      ∧ (validateKeyInput kpValid res input s).sol_balance = s.sol_balance)
    ∧ (∀ bytes, bs58Decode input = some bytes → bytes.length = KEY_LENGTH →
        kpValid bytes = false → validateKeyInput kpValid res input s = s)
    ∧ ((validateKeyInput kpValid res input s).enable_import_button = true →
        s.enable_import_button = true
        ∨ ∃ bytes, bs58Decode input = some bytes ∧ bytes.length = KEY_LENGTH
            ∧ kpValid bytes = true) := by
  refine ⟨?_, ?_, ?_, ?_⟩
  · intro h
    simp [validateKeyInput, h]
  · intro bytes h hlen
    simp only [KEY_LENGTH] at hlen
    by_cases h0 : bytes.length = 0 <;>
      simp [validateKeyInput, KEY_LENGTH, h, hlen, h0]
  · intro bytes h hlen hkp
    simp [validateKeyInput, h, hlen, hkp]
  · intro he
    cases h : bs58Decode input with
    | none => simp [validateKeyInput, h] at he
    | some bytes =>
      by_cases hlen : bytes.length = KEY_LENGTH
      · by_cases hkp : kpValid bytes
        · exact Or.inr ⟨bytes, rfl, hlen, hkp⟩
        · rw [validateKeyInput, h] at he
          simp [hlen, hkp] at he
          exact Or.inl he
      · simp only [KEY_LENGTH] at hlen
        by_cases h0 : bytes.length = 0 <;>
          simp [validateKeyInput, KEY_LENGTH, h, hlen, h0] at he

/-- Witness for C5 (amended) on concrete failing inputs and the stale
state. -/
theorem import_key_failure_handling_witness :
    (validateKeyInput (fun _ => false) (Except.ok 0) "0"
        staleImportState).enable_import_button = false
    ∧ (validateKeyInput (fun _ => false) (Except.ok 0) "2"
        staleImportState).sol_balance = staleImportState.sol_balance
    ∧ validateKeyInput (fun _ => false) (Except.ok 0) key64Ones staleImportState
        = staleImportState := by
  refine ⟨?_, ?_, ?_⟩
  · exact ((import_key_failure_handling (fun _ => false) (Except.ok 0) "0"
      staleImportState).1 (by decide)).1
  · exact ((import_key_failure_handling (fun _ => false) (Except.ok 0) "2"
      staleImportState).2.1 [1] (by decide) (by decide)).2
  · exact (import_key_failure_handling (fun _ => false) (Except.ok 0) key64Ones
      staleImportState).2.2.1 (List.replicate 64 0) (by decide) (by decide) rfl

/-- Counterexample to C7 as stated: the import flow's balance signal is
created as `None` (not `Loading`), and a validation pass on a valid key
writes it directly to `Ok` — it never passes through `Loading`. -/
theorem import_balance_loading_cex :
    importSolBalanceInit ≠ some AsyncResult.Loading
    ∧ solBalanceWrites (fun _ => true) (Except.ok 7) key64Ones
        = [some (AsyncResult.Ok 7)]
    ∧ some (AsyncResult.Loading : AsyncResult Nat) ∉
        solBalanceWrites (fun _ => true) (Except.ok 7) key64Ones := by
  decide

/-- C7 amended: the import flow's balance signal is created as `None`; each
validation pass writes it at most once, directly to `Ok` or `Error` (never
to `Loading`), and the pass's final `sol_balance` is the last write (or the
prior value when nothing is written). -/
theorem import_balance_writes (kpValid : List Nat → Bool)
    (res : Except GatewayError Nat) (input : String) (s : ImportState) :
    importSolBalanceInit = none
    ∧ (solBalanceWrites kpValid res input).length ≤ 1
    ∧ (validateKeyInput kpValid res input s).sol_balance
        = (solBalanceWrites kpValid res input).headD s.sol_balance
    ∧ ∀ w ∈ solBalanceWrites kpValid res input,
        (∃ b, w = some (AsyncResult.Ok b)) ∨ (∃ e, w = some (AsyncResult.Error e)) := by
  refine ⟨rfl, ?_, ?_, ?_⟩ <;>
  · cases h : bs58Decode input with
    | none => simp [validateKeyInput, solBalanceWrites, h]
    | some bytes =>
      by_cases hlen : bytes.length = KEY_LENGTH
      · by_cases hkp : kpValid bytes <;> cases res <;>
          simp [validateKeyInput, solBalanceWrites, h, hlen, hkp]
      · simp only [KEY_LENGTH] at hlen
        by_cases h0 : bytes.length = 0 <;>
          simp [validateKeyInput, solBalanceWrites, KEY_LENGTH, h, hlen, h0]

/-- Witness for C7 (amended): the one write of a successful pass is an `Ok`
value. -/
theorem import_balance_writes_witness :
    (∃ b, some (AsyncResult.Ok 7) = some (AsyncResult.Ok b))
    ∨ (∃ e, some (AsyncResult.Ok 7) = some (AsyncResult.Error e)) :=
  (import_balance_writes (fun _ => true) (Except.ok 7) key64Ones
    importInitState).2.2.2 (some (AsyncResult.Ok 7)) (by decide)

/-- C10: on a pasted string decoding to exactly 64 bytes that fail to parse
as a keypair, the validation pass leaves the error message, the
import-enabled flag and the displayed balance unchanged (the whole state is
unchanged). -/
theorem import_key_parse_failure_frame (kpValid : List Nat → Bool)
    (res : Except GatewayError Nat) (input : String) (s : ImportState)
    (bytes : List Nat) (h : bs58Decode input = some bytes)
    (hlen : bytes.length = KEY_LENGTH) (hkp : kpValid bytes = false) :
    (validateKeyInput kpValid res input s).err_msg = s.err_msg
    ∧ (validateKeyInput kpValid res input s).enable_import_button
        = s.enable_import_button
    ∧ (validateKeyInput kpValid res input s).sol_balance = s.sol_balance := by
  simp [validateKeyInput, h, hlen, hkp]

/-- Witness for C10 on the 64-zero-byte key with the button previously
enabled and a balance displayed. -/
theorem import_key_parse_failure_frame_witness :
    (validateKeyInput (fun _ => false) (Except.ok 9) key64Ones
        staleImportState).enable_import_button
      = staleImportState.enable_import_button
    ∧ (validateKeyInput (fun _ => false) (Except.ok 9) key64Ones
        staleImportState).sol_balance = staleImportState.sol_balance :=
  ⟨(import_key_parse_failure_frame (fun _ => false) (Except.ok 9) key64Ones
      staleImportState (List.replicate 64 0) (by decide) (by decide) rfl).2.1,
   (import_key_parse_failure_frame (fun _ => false) (Except.ok 9) key64Ones
      staleImportState (List.replicate 64 0) (by decide) (by decide) rfl).2.2⟩

end OreApp
